import Mathlib

/-!
Verification of the inbox processing pipeline of `bot.py`.

Strings are modelled as `List Char` (Python `str` is a sequence of code
points).  External collaborators (the Gmail API, the base64 transport
decoder, the generative backend, the SMTP send) are modelled as oracle
fields of a `GmailEnv` record: an `Option` result `none` stands for the
collaborator raising an exception, exactly at the places where the Python
code can observe one.
-/

set_option autoImplicit false

namespace EmailBot

/-- Whitespace as matched by `re`'s `\s` on ASCII text
(space, tab, newline, carriage return, vertical tab, form feed). -/
def isSpaceChar (c : Char) : Bool :=
  c == ' ' || c == '\t' || c == '\n' || c == '\x0d' || c == '\x0b' || c == '\x0c'

/-- Worker for `collapseWS`: the flag records whether the previously
emitted character was the space of a whitespace run. -/
def collapseAux : Bool → List Char → List Char
  | _, [] => []
  | prevSpace, c :: cs =>
    if isSpaceChar c then
      if prevSpace then collapseAux true cs
      else ' ' :: collapseAux true cs
    else c :: collapseAux false cs

/-- `re.sub(r"\s+", " ", body)`: every maximal whitespace run becomes a
single space. -/
def collapseWS (l : List Char) : List Char :=
  collapseAux false l

/-- Python `str.strip()`: drop leading and trailing whitespace. -/
def stripWS (l : List Char) : List Char :=
  ((l.dropWhile isSpaceChar).reverse.dropWhile isSpaceChar).reverse

/-- `bot.py` line 121: `re.sub(r"\s+", " ", body).strip()[:500]`. -/
def normalizeBody (body : List Char) : List Char :=
  (stripWS (collapseWS body)).take 500

/-- Does `pat` match at the head of the text? -/
def prefixMatch : List Char → List Char → Bool
  | [], _ => true
  | _ :: _, [] => false
  | a :: as, b :: bs => a == b && prefixMatch as bs

/-- Python `pat in text`: substring containment. -/
def occursIn (pat : List Char) : List Char → Bool
  | [] => prefixMatch pat []
  | c :: cs => prefixMatch pat (c :: cs) || occursIn pat cs

/-- Worker for `removeAll`: the counter holds how many characters of an
already matched occurrence remain to be skipped. -/
def removeAllAux (pat : List Char) : Nat → List Char → List Char
  | _, [] => []
  | Nat.succ k, _ :: cs => removeAllAux pat k cs
  | 0, c :: cs =>
    if pat ≠ [] && prefixMatch pat (c :: cs) then
      removeAllAux pat (pat.length - 1) cs
    else
      c :: removeAllAux pat 0 cs

/-- Python `text.replace(pat, "")`: delete the non-overlapping occurrences
of `pat`, scanning left to right. -/
def removeAll (pat text : List Char) : List Char :=
  removeAllAux pat 0 text

/-- The sentence-ending punctuation of `re.split(r"[.!?]", reply)`. -/
def sentencePunct (c : Char) : Bool :=
  c == '.' || c == '!' || c == '?'

/-- One entry of `payload["headers"]`: a `{name, value}` pair. -/
structure Header where
  name : List Char
  value : List Char
deriving DecidableEq

/-- One entry of `payload["parts"]`.  `bodyData` is `some d` exactly when
both `"body" in part` and `"data" in part["body"]` hold, with `d` the
base64url text `part["body"]["data"]`. -/
structure Part where
  mimeType : List Char
  bodyData : Option (List Char)
deriving DecidableEq

/-- `message["payload"]`: `parts` is `some _` exactly when
`"parts" in payload`, and `bodyData` is `some d` exactly when both
`"body" in payload` and `"data" in payload["body"]` hold. -/
structure Payload where
  headers : List Header
  parts : Option (List Part)
  bodyData : Option (List Char)
deriving DecidableEq

/-- The raw provider message returned by `messages().get(...)`. -/
structure RawMessage where
  payload : Payload
  threadId : List Char
deriving DecidableEq

/-- The dict returned by `get_email_content` (field `from` is a Lean
keyword, rendered `fromAddr`). -/
structure EmailContent where
  subject : List Char
  fromAddr : List Char
  body : List Char
  thread_id : List Char
  message_id : List Char
deriving DecidableEq

/-- The `HttpError` raised by a provider call. -/
structure TransportError where
  msg : List Char

/-- Oracles for the external collaborators of one poll cycle.
`fetch` is `messages().get(...)` (`none` = the call raises);
`decode` is `base64.urlsafe_b64decode(d + "===").decode("utf-8",
errors="ignore")` (`none` = `b64decode` raises `binascii.Error`);
`infer` is the `chat_pipeline` handle, `none` when the model is
unavailable, otherwise a map from the prompt to `response[0]
["generated_text"]` with `none` = the backend raises;
`sendResult` tells whether `messages().send(...)` succeeds for the given
thread id, reply text and recipient. -/
structure GmailEnv where
  fetch : List Char → Option RawMessage
  decode : List Char → Option (List Char)
  infer : Option (List Char → Option (List Char))
  sendResult : List Char → List Char → List Char → Bool

/-- The header-walking loop of `get_email_content` (lines 103-107):
each matching header overwrites the variable, starting from `""`. -/
def findHeader (n : List Char) (headers : List Header) : List Char :=
  headers.foldl (fun acc hd => if hd.name = n then hd.value else acc) []

/-- The `for part in payload["parts"]` loop (lines 111-115): the data of
the first `text/plain` part that has `body.data`, if any. -/
def firstPlainData : List Part → Option (List Char)
  | [] => none
  | p :: ps =>
    if p.mimeType = "text/plain".toList then
      match p.bodyData with
      | some d => some d
      | none => firstPlainData ps
    else firstPlainData ps

/-- The body-location logic of lines 110-118: prefer the first matching
part of a multi-part payload, fall back to the single-part body, and leave
`body = ""` when neither is present.  The result is `none` exactly when
the base64 decode of the located data raises. -/
def extractRawBody (env : GmailEnv) (payload : Payload) : Option (List Char) :=
  match payload.parts with
  | some parts =>
    match firstPlainData parts with
    | some d => env.decode d
    | none => some []
  | none =>
    match payload.bodyData with
    | some d => env.decode d
    | none => some []

/-- `EmailBot.get_email_content` (lines 89-133).  Any exception inside the
`try` block — a failing `messages().get` or a failing base64 decode — is
caught by the handler at line 131, which returns `None`. -/
def get_email_content (env : GmailEnv) (message_id : List Char) :
    Option EmailContent :=
  match env.fetch message_id with
  | none => none
  | some message =>
    match extractRawBody env message.payload with
    | none => none
    | some body =>
      some { subject := findHeader "Subject".toList message.payload.headers
             fromAddr := findHeader "From".toList message.payload.headers
             body := normalizeBody body
             thread_id := message.threadId
             message_id := message_id }

/-- `(email_content["subject"] + " " + email_content["body"]).lower()`. -/
def lowerText (ec : EmailContent) : List Char :=
  (ec.subject ++ ' ' :: ec.body).map Char.toLower

/-- `any(word in text for word in words)`. -/
def containsAny (words : List (List Char)) (text : List Char) : Bool :=
  words.any (fun w => occursIn w text)

def greetingWords : List (List Char) :=
  ["hello".toList, "hi".toList, "hey".toList, "greeting".toList]

def questionWords : List (List Char) :=
  ["question".toList, "ask".toList, "help".toList, "support".toList]

def urgencyWords : List (List Char) :=
  ["urgent".toList, "asap".toList, "important".toList, "emergency".toList]

def gratitudeWords : List (List Char) :=
  ["thank".toList, "thanks".toList, "appreciate".toList, "grateful".toList]

def schedulingWords : List (List Char) :=
  ["meeting".toList, "schedule".toList, "appointment".toList, "calendar".toList]

def greetingReply : List Char :=
  "Hello! Thank you for your message. I\x27ll get back to you soon.".toList

def questionReply : List Char :=
  "Thanks for your question. I\x27ll look into this and respond properly.".toList

def urgencyReply : List Char :=
  "I\x27ve received your urgent message and will prioritize it.".toList

def gratitudeReply : List Char :=
  "You\x27re welcome! I\x27m glad I could help.".toList

def schedulingReply : List Char :=
  "I\x27ll check my schedule and get back to you about the meeting.".toList

def defaultReply : List Char :=
  "Thank you for your email. I\x27ve received it and will respond soon.".toList

/-- `EmailBot.generate_simple_reply` (lines 135-150). -/
def generate_simple_reply (ec : EmailContent) : List Char :=
  let text := lowerText ec
  if containsAny greetingWords text then greetingReply
  else if containsAny questionWords text then questionReply
  else if containsAny urgencyWords text then urgencyReply
  else if containsAny gratitudeWords text then gratitudeReply
  else if containsAny schedulingWords text then schedulingReply
  else defaultReply

/-- The prompt built at lines 155-157. -/
def promptFor (ec : EmailContent) : List Char :=
  "Email subject: ".toList ++ ec.subject ++ '\n' ::
    ("Email content: ".toList ++ ec.body ++ '\n' ::
      "Please write a short, helpful reply to this email:".toList)

/-- `EmailBot.generate_ai_reply` (lines 152-175).  Any exception from the
backend call (modelled by the oracle returning `none`) is caught at line
173 and answered with `generate_simple_reply`. -/
def generate_ai_reply (inf : List Char → Option (List Char))
    (ec : EmailContent) : List Char :=
  let prompt := promptFor ec
  match inf prompt with
  | none => generate_simple_reply ec
  | some generated =>
    let reply := stripWS (removeAll prompt generated)
    let reply := reply.takeWhile (fun c => ! sentencePunct c)
    reply.take 200

/-- `EmailBot.generate_reply` (lines 177-182): use the model when the
`chat_pipeline` handle is truthy, else the rule-based reply. -/
def generate_reply (env : GmailEnv) (ec : EmailContent) : List Char :=
  match env.infer with
  | some f => generate_ai_reply f ec
  | none => generate_simple_reply ec

/-- `EmailBot.send_reply` (lines 184-202): `True` on success, `False`
when the transport raises (the handler at line 200). -/
def send_reply (env : GmailEnv) (thread_id reply_text to_email : List Char) :
    Bool :=
  env.sendResult thread_id reply_text to_email

/-- One observable gateway call made while processing a message:
an attempted `messages().send` or a `mark_as_replied` (`markRead`). -/
inductive Action where
  | sendMsg : List Char → List Char → List Char → Action
  | markRead : List Char → Action
deriving DecidableEq

/-- The per-message body of the loop in `EmailBot.run` (lines 229-241),
as the list of gateway calls it performs: skip the message when
extraction returned `None`; otherwise attempt the send, and call
`mark_as_replied` exactly when `send_reply` returned `True`. -/
def processMessage (env : GmailEnv) (mid : List Char) : List Action :=
  match get_email_content env mid with
  | none => []
  | some ec =>
    let reply := generate_reply env ec
    if send_reply env ec.thread_id reply ec.fromAddr then
      [Action.sendMsg ec.thread_id ec.fromAddr reply, Action.markRead mid]
    else
      [Action.sendMsg ec.thread_id ec.fromAddr reply]

/-- One drain of a poll cycle's batch: the messages are processed
strictly in list order (the `for message in messages` loop). -/
def runCycle (env : GmailEnv) : List (List Char) → List Action
  | [] => []
  | m :: ms => processMessage env m ++ runCycle env ms

/-- `EmailBot.get_unreplied_emails` (lines 78-87): the provider response
is either an `HttpError` (caught, the function returns `[]`), or a
response dict whose optional `messages` key defaults to `[]`. -/
def get_unreplied_emails
    (resp : Except TransportError (Option (List (List Char)))) :
    List (List Char) :=
  match resp with
  | Except.error _ => []
  | Except.ok none => []
  | Except.ok (some ms) => ms

/-! ### Concrete fixtures -/

/-- The contents of §8's keyword-priority example message. -/
def ecHello : EmailContent :=
  { subject := "hello, need urgent help".toList
    fromAddr := "a@b".toList
    body := []
    thread_id := "t1".toList
    message_id := "m1".toList }

/-- A message whose text contains the greeting keyword `hi` only inside
the word `this`. -/
def ecThis : EmailContent :=
  { subject := "this".toList, fromAddr := [], body := []
    thread_id := [], message_id := [] }

/-- A message whose text contains the question keyword `ask` only inside
the word `asking`. -/
def ecAsking : EmailContent :=
  { subject := "asking".toList, fromAddr := [], body := []
    thread_id := [], message_id := [] }

/-- A keyword-free message, used to exercise the generative paths. -/
def ecPlain : EmailContent :=
  { subject := "status".toList, fromAddr := [], body := "ok then".toList
    thread_id := [], message_id := [] }

/-! ### Helper lemmas -/

/-- The header loop leaves its accumulator unchanged over a stretch of
headers none of which carries the searched name. -/
theorem foldl_header_no_match (n : List Char) (post : List Header)
    (acc : List Char) (h : ∀ hd ∈ post, hd.name ≠ n) :
    post.foldl (fun acc hd => if hd.name = n then hd.value else acc) acc
      = acc := by
  induction post generalizing acc with
  | nil => rfl
  | cons hd tl ih =>
    have h1 : hd.name ≠ n := h hd (List.mem_cons_self hd tl)
    simp only [List.foldl_cons, if_neg h1]
    exact ih acc (fun x hx => h x (List.mem_cons_of_mem hd hx))

/-- A batch drain distributes over list append. -/
theorem runCycle_append (env : GmailEnv) (xs ys : List (List Char)) :
    runCycle env (xs ++ ys) = runCycle env xs ++ runCycle env ys := by
  induction xs with
  | nil => simp [runCycle]
  | cons x xs ih => simp [runCycle, ih]

/-! ### Claim theorems -/

/-- C1: in the loop of `EmailBot.run`, `mark_as_replied` (markRead) is
invoked for a processed message exactly when `send_reply` for its reply
returned success; on transport failure of the send there is no markRead
call, so the message stays unread. -/
theorem c1_mark_iff_send_success (env : GmailEnv) (mid : List Char) :
    (Action.markRead mid ∈ processMessage env mid) ↔
      ∃ ec, get_email_content env mid = some ec ∧
        send_reply env ec.thread_id (generate_reply env ec) ec.fromAddr
          = true := by
  unfold processMessage
  cases hec : get_email_content env mid with
  | none => simp
  | some ec =>
    cases hs : send_reply env ec.thread_id (generate_reply env ec) ec.fromAddr
      with
    | false => simp [hs]
    | true => simp [hs]

/-- C2: the reply-generation chain is total — with the backend raising on
the message's prompt (in particular, raising on every invocation),
`generate_ai_reply` is caught into exactly `generate_simple_reply`'s
output, and `generate_reply` follows suit. -/
theorem c2_fallback_totality :
    (∀ ec : EmailContent,
      generate_ai_reply (fun _ => none) ec = generate_simple_reply ec) ∧
    (∀ (f : List Char → Option (List Char)) (ec : EmailContent),
      f (promptFor ec) = none →
      generate_ai_reply f ec = generate_simple_reply ec) ∧
    (∀ (env : GmailEnv) (f : List Char → Option (List Char))
        (ec : EmailContent),
      env.infer = some f → f (promptFor ec) = none →
      generate_reply env ec = generate_simple_reply ec) := by
  refine ⟨fun ec => rfl, fun f ec h => ?_, fun env f ec hf h => ?_⟩
  · simp [generate_ai_reply, h]
  · simp [generate_reply, hf, generate_ai_reply, h]

/-- Witness for C2 at a concrete message and an always-failing backend. -/
theorem c2_fallback_totality_witness :
    (fun _ : List Char => (none : Option (List Char))) (promptFor ecPlain)
       = none ∧
    generate_ai_reply (fun _ => none) ecPlain
      = generate_simple_reply ecPlain :=
  ⟨rfl, c2_fallback_totality.2.1 (fun _ => none) ecPlain rfl⟩

/-- C3: the rule-based reply tests the lower-cased subject-plus-body text
against the keyword sets in the order greeting, question/help, urgency,
gratitude, scheduling, first match winning, with a default otherwise; the
subject `"hello, need urgent help"` selects the greeting reply. -/
theorem c3_keyword_priority (ec : EmailContent) :
    (containsAny greetingWords (lowerText ec) = true →
      generate_simple_reply ec = greetingReply) ∧
    (containsAny greetingWords (lowerText ec) = false →
      containsAny questionWords (lowerText ec) = true →
      generate_simple_reply ec = questionReply) ∧
    (containsAny greetingWords (lowerText ec) = false →
      containsAny questionWords (lowerText ec) = false →
      containsAny urgencyWords (lowerText ec) = true →
      generate_simple_reply ec = urgencyReply) ∧
    (containsAny greetingWords (lowerText ec) = false →
      containsAny questionWords (lowerText ec) = false →
      containsAny urgencyWords (lowerText ec) = false →
      containsAny gratitudeWords (lowerText ec) = true →
      generate_simple_reply ec = gratitudeReply) ∧
    (containsAny greetingWords (lowerText ec) = false →
      containsAny questionWords (lowerText ec) = false →
      containsAny urgencyWords (lowerText ec) = false →
      containsAny gratitudeWords (lowerText ec) = false →
      containsAny schedulingWords (lowerText ec) = true →
      generate_simple_reply ec = schedulingReply) ∧
    (containsAny greetingWords (lowerText ec) = false →
      containsAny questionWords (lowerText ec) = false →
      containsAny urgencyWords (lowerText ec) = false →
      containsAny gratitudeWords (lowerText ec) = false →
      containsAny schedulingWords (lowerText ec) = false →
      generate_simple_reply ec = defaultReply) ∧
    generate_simple_reply ecHello = greetingReply := by
  refine ⟨?_, ?_, ?_, ?_, ?_, ?_, by decide⟩ <;>
    intros <;> simp_all [generate_simple_reply]

/-- Witness for C3 at the §8 example message. -/
theorem c3_keyword_priority_witness :
    containsAny greetingWords (lowerText ecHello) = true ∧
    generate_simple_reply ecHello = greetingReply :=
  ⟨by decide, (c3_keyword_priority ecHello).1 (by decide)⟩

/-- C4: body normalization collapses every whitespace run to one space,
trims, then truncates to at most 500 characters; a normalized body longer
than the cap comes out at exactly 500 characters, and `"a\n\n\tb"`
normalizes to `"a b"`. -/
theorem c4_body_normalization (body : List Char) :
    (normalizeBody body).length ≤ 500 ∧
    (500 ≤ (stripWS (collapseWS body)).length →
      (normalizeBody body).length = 500) ∧
    normalizeBody "a\n\n\tb".toList = "a b".toList := by
  refine ⟨List.length_take_le 500 _, fun h => ?_, by decide⟩
  unfold normalizeBody
  rw [List.length_take]
  exact min_eq_left h

set_option maxRecDepth 100000 in
/-- Witness for C4 at a 501-character body. -/
theorem c4_body_normalization_witness :
    500 ≤ (stripWS (collapseWS (List.replicate 501 'a'))).length ∧
    (normalizeBody (List.replicate 501 'a')).length = 500 :=
  ⟨by decide, (c4_body_normalization (List.replicate 501 'a')).2.1 (by decide)⟩

/-- C9: on a successful backend response, the generative reply equals the
generated text with the prompt occurrences removed, stripped, cut at the
first sentence-ending punctuation mark, and truncated to 200 characters;
in particular the result has no sentence-ending punctuation and is at
most 200 characters long. -/
theorem c9_ai_postprocessing (f : List Char → Option (List Char))
    (ec : EmailContent) (g : List Char) (h : f (promptFor ec) = some g) :
    generate_ai_reply f ec =
      ((stripWS (removeAll (promptFor ec) g)).takeWhile
        (fun c => ! sentencePunct c)).take 200 ∧
    (generate_ai_reply f ec).length ≤ 200 ∧
    (∀ c ∈ generate_ai_reply f ec, sentencePunct c = false) := by
  have he : generate_ai_reply f ec =
      ((stripWS (removeAll (promptFor ec) g)).takeWhile
        (fun c => ! sentencePunct c)).take 200 := by
    simp [generate_ai_reply, h]
  refine ⟨he, ?_, ?_⟩
  · rw [he]
    exact List.length_take_le 200 _
  · intro c hc
    rw [he] at hc
    have hc2 := List.mem_takeWhile_imp (List.mem_of_mem_take hc)
    simpa using hc2

/-- Witness for C9 at a concrete backend response. -/
theorem c9_ai_postprocessing_witness :
    (fun _ : List Char => some "Ok then. And more".toList) (promptFor ecPlain)
      = some "Ok then. And more".toList ∧
    generate_ai_reply (fun _ => some "Ok then. And more".toList) ecPlain
      = "Ok then".toList ∧
    (generate_ai_reply (fun _ => some "Ok then. And more".toList)
      ecPlain).length ≤ 200 :=
  ⟨rfl, by decide,
    (c9_ai_postprocessing (fun _ => some "Ok then. And more".toList) ecPlain
      "Ok then. And more".toList rfl).2.1⟩

/-- C10: keyword matching is substring containment on the lower-cased
subject-plus-body text, not word-boundary membership: any text containing
`hi` (even inside another word) selects the greeting reply, `"this"`
selects the greeting reply via the `hi` inside it, and `"asking"` selects
the question reply via the `ask` inside it. -/
theorem c10_substring_matching (ec : EmailContent) :
    (occursIn "hi".toList (lowerText ec) = true →
      generate_simple_reply ec = greetingReply) ∧
    generate_simple_reply ecThis = greetingReply ∧
    generate_simple_reply ecAsking = questionReply := by
  refine ⟨fun h => ?_, by decide, by decide⟩
  have hg : containsAny greetingWords (lowerText ec) = true := by
    simp only [containsAny, greetingWords, List.any_cons, List.any_nil,
      Bool.or_eq_true]
    exact Or.inr (Or.inl h)
  simp [generate_simple_reply, hg]

/-- Witness for C10 at the message whose subject is `"this"`. -/
theorem c10_substring_matching_witness :
    occursIn "hi".toList (lowerText ecThis) = true ∧
    generate_simple_reply ecThis = greetingReply :=
  ⟨by decide, (c10_substring_matching ecThis).1 (by decide)⟩

/-! ### Fixtures for the header, decode and batch claims -/

/-- A raw message with a duplicated `Subject` header. -/
def msgC5 : RawMessage :=
  { payload := { headers := [⟨"Subject".toList, "first".toList⟩,
                             ⟨"Subject".toList, "second".toList⟩,
                             ⟨"From".toList, "a@b".toList⟩]
                 parts := none
                 bodyData := none }
    threadId := "t1".toList }

/-- An environment whose provider always returns `msgC5`. -/
def envC5 : GmailEnv :=
  { fetch := fun _ => some msgC5
    decode := fun _ => none
    infer := none
    sendResult := fun _ _ _ => false }

/-- The content `get_email_content` extracts from `msgC5`. -/
def ecC5 : EmailContent :=
  { subject := "second".toList
    fromAddr := "a@b".toList
    body := []
    thread_id := "t1".toList
    message_id := "m1".toList }

/-- A one-part body whose base64 data fails to decode: the data `"A"`
has one data character, and `base64.urlsafe_b64decode("A" + "===")`
raises `binascii.Error` ("number of data characters (1) cannot be 1 more
than a multiple of 4") — the sole failure mode the `+ "==="` padding
trick leaves open for alphabet-only data. -/
def partsC6 : List Part :=
  [{ mimeType := "text/plain".toList, bodyData := some "A".toList }]

/-- A raw message carrying `partsC6`. -/
def msgC6 : RawMessage :=
  { payload := { headers := [], parts := some partsC6, bodyData := none }
    threadId := "t1".toList }

/-- An environment with the realizable decoder: for data drawn from the
base64url alphabet, `base64.urlsafe_b64decode(d + "===")` raises exactly
when the number of data characters is 1 more than a multiple of 4, and
succeeds otherwise (excess padding is tolerated in non-strict mode).
The decoded text of the succeeding case is irrelevant here: the only
data this fixture ever decodes is the failing `"A"` of `partsC6`. -/
def envC6 : GmailEnv :=
  { fetch := fun _ => some msgC6
    decode := fun d => if d.length % 4 = 1 then none else some []
    infer := none
    sendResult := fun _ _ _ => false }

/-- A simple raw greeting message on the given thread. -/
def msgC7 (tid : List Char) : RawMessage :=
  { payload := { headers := [⟨"Subject".toList, "hello".toList⟩,
                             ⟨"From".toList, "a@b".toList⟩]
                 parts := none
                 bodyData := none }
    threadId := tid }

/-- An environment where fetching message `m2` raises, every other fetch
returns a greeting message, the model is unavailable, and sends
succeed. -/
def envC7 : GmailEnv :=
  { fetch := fun mid => if mid = "m2".toList then none else some (msgC7 mid)
    decode := fun _ => none
    infer := none
    sendResult := fun _ _ _ => true }

/-- C5 as stated is false: with two `Subject` headers the extracted
subject is the value of the last occurrence, not the first. -/
theorem c5_first_occurrence_counterexample :
    (get_email_content envC5 "m1".toList).map EmailContent.subject
      = some "second".toList ∧
    some "second".toList ≠ some "first".toList := by decide

/-- C5 amended: the header loop keeps overwriting, so the value of the
last occurrence of a header wins; a missing header yields the empty
string, and extraction does not fail on either account. -/
theorem c5_last_occurrence_wins (env : GmailEnv) (mid : List Char)
    (msg : RawMessage) (ec : EmailContent)
    (h1 : env.fetch mid = some msg)
    (h2 : get_email_content env mid = some ec) :
    (ec.subject = findHeader "Subject".toList msg.payload.headers ∧
     ec.fromAddr = findHeader "From".toList msg.payload.headers) ∧
    (∀ (n v : List Char) (pre post : List Header),
      (∀ hd ∈ post, hd.name ≠ n) →
      findHeader n (pre ++ ⟨n, v⟩ :: post) = v) ∧
    (∀ (n : List Char) (hs : List Header),
      (∀ hd ∈ hs, hd.name ≠ n) → findHeader n hs = []) := by
  refine ⟨?_, ?_, ?_⟩
  · simp only [get_email_content, h1] at h2
    cases hb : extractRawBody env msg.payload with
    | none => rw [hb] at h2; exact absurd h2 (by simp)
    | some body =>
      rw [hb] at h2
      simp only [Option.some.injEq] at h2
      rw [← h2]
      exact ⟨rfl, rfl⟩
  · intro n v pre post hpost
    unfold findHeader
    rw [List.foldl_append]
    simp only [List.foldl_cons, if_pos rfl]
    exact foldl_header_no_match n post v hpost
  · intro n hs hnone
    exact foldl_header_no_match n hs [] hnone

/-- Witness for the amended C5 at the duplicated-header message. -/
theorem c5_last_occurrence_wins_witness :
    envC5.fetch "m1".toList = some msgC5 ∧
    get_email_content envC5 "m1".toList = some ecC5 ∧
    ecC5.subject = findHeader "Subject".toList msgC5.payload.headers :=
  ⟨rfl, by decide,
    (c5_last_occurrence_wins envC5 "m1".toList msgC5 ecC5 rfl (by decide)).1.1⟩

/-- C6 as stated is false: when the located body part fails to decode,
the exception reaches the handler at line 131 and the whole extraction
returns `None` — no `EmailContent` with an empty body is produced. -/
theorem c6_empty_body_counterexample :
    firstPlainData partsC6 = some "A".toList ∧
    envC6.decode "A".toList = none ∧
    ¬ ∃ ec : EmailContent, get_email_content envC6 "m1".toList = some ec := by
  refine ⟨rfl, by decide, ?_⟩
  rintro ⟨ec, hec⟩
  have hnone : get_email_content envC6 "m1".toList = none := by decide
  rw [hnone] at hec
  exact Option.noConfusion hec

/-- C6 amended: a decode failure of the located body part makes the whole
extraction fail (`get_email_content` returns `None`) and the message is
skipped, rather than produce an empty body. -/
theorem c6_decode_failure_fails_extraction (env : GmailEnv)
    (mid : List Char) (msg : RawMessage) (parts : List Part) (d : List Char)
    (h1 : env.fetch mid = some msg)
    (h2 : msg.payload.parts = some parts)
    (h3 : firstPlainData parts = some d)
    (h4 : env.decode d = none) :
    get_email_content env mid = none := by
  simp [get_email_content, h1, extractRawBody, h2, h3, h4]

/-- Witness for the amended C6 at the failing-decode message. -/
theorem c6_decode_failure_fails_extraction_witness :
    envC6.fetch "m1".toList = some msgC6 ∧
    get_email_content envC6 "m1".toList = none :=
  ⟨rfl, c6_decode_failure_fails_extraction envC6 "m1".toList msgC6 partsC6
    "A".toList rfl rfl rfl (by decide)⟩

/-- C7: a message whose extraction fails leaves no trace in the batch
drain and every other message is still processed; in the concrete
3-message batch where fetching the 2nd raises, the 1st and 3rd are both
sent and acknowledged. -/
theorem c7_batch_resilience (env : GmailEnv) (xs ys : List (List Char))
    (mid : List Char) (h : get_email_content env mid = none) :
    (processMessage env mid = [] ∧
     runCycle env (xs ++ mid :: ys) = runCycle env xs ++ runCycle env ys) ∧
    runCycle envC7 ["m1".toList, "m2".toList, "m3".toList] =
      [Action.sendMsg "m1".toList "a@b".toList greetingReply,
       Action.markRead "m1".toList,
       Action.sendMsg "m3".toList "a@b".toList greetingReply,
       Action.markRead "m3".toList] := by
  have hskip : processMessage env mid = [] := by
    simp [processMessage, h]
  refine ⟨⟨hskip, ?_⟩, by decide⟩
  rw [runCycle_append]
  have : runCycle env (mid :: ys) = runCycle env ys := by
    simp [runCycle, hskip]
  rw [this]

/-- Witness for C7 at the 3-message batch. -/
theorem c7_batch_resilience_witness :
    get_email_content envC7 "m2".toList = none ∧
    runCycle envC7 (["m1".toList] ++ "m2".toList :: ["m3".toList]) =
      runCycle envC7 ["m1".toList] ++ runCycle envC7 ["m3".toList] :=
  ⟨by decide,
    (c7_batch_resilience envC7 ["m1".toList] ["m3".toList] "m2".toList
      (by decide)).1.2⟩

/-- C8: a transport error from `listUnread` makes
`get_unreplied_emails` return the empty list, and draining that empty
batch performs no processing, so the loop just sleeps. -/
theorem c8_list_failure_empty_cycle (e : TransportError) (env : GmailEnv) :
    get_unreplied_emails (Except.error e) = [] ∧
    runCycle env (get_unreplied_emails (Except.error e)) = [] :=
  ⟨rfl, rfl⟩

end EmailBot
